import Mathlib

/-!
Verification of the summary engine, report formatter and URL validation of
the video-summary web tool (`app.py`).

The embedding models the pure string-processing core of the program:
`generate_summary` (extractive summarization plus the optional AI-enhanced
branch), `format_markdown` (the report formatter) and the URL gate at the
start of `main`.  External effects are modelled as explicit parameters:

* the outcome of the AI completion call (everything from `import openai` up
  to and including `response.choices[0].message["content"]`, any of which
  can raise) is passed in as `Except String String` — `.ok raw` is the
  returned message content, `.error e` is a raised exception with message
  `e`;
* the wall-clock timestamp read by `format_markdown` for its footer is
  passed in as the `now : String` argument;
* `main`'s pipeline is modelled only up to its first effect (the URL
  validation gate and whether `get_video` is reached), as a list of actions.

Python string primitives used by the program are re-implemented over
`List Char` (Python `str` operations act on code points, as Lean `String`
values do): `str.split` with a one-character separator, `str.strip()`,
`str.lstrip(chars)`, `str.startswith`, slicing `[:n]`, and
`datetime.strptime(s, "%Y%m%d")` with CPython's `_strptime` semantics.
-/

namespace App

/-- Python `str.isspace` characters relevant here (ASCII whitespace); used
by `str.strip()` / the trailing `.strip()` calls in `app.py`. -/
def pySpace (c : Char) : Bool :=
  c = ' ' || c = '\t' || c = '\n' || c = '\r' || c = '\x0b' || c = '\x0c'

/-- Python `s.strip()`: remove leading and trailing whitespace. -/
def pyStrip (s : String) : String :=
  ⟨((s.data.dropWhile pySpace).reverse.dropWhile pySpace).reverse⟩

/-- Python `s.lstrip(chars)`: remove the maximal leading run of characters
drawn from `cs`. -/
def pyLStrip (cs : List Char) (s : String) : String :=
  ⟨s.data.dropWhile (fun c => cs.contains c)⟩

/-- Splitting a character list at every occurrence of `sep`, keeping empty
pieces: the semantics of Python `s.split(sep)` for a one-character
separator (`"。"` and `"\n"` in `app.py`). -/
def splitChar (sep : Char) : List Char → List (List Char)
  | [] => [[]]
  | c :: cs =>
    let r := splitChar sep cs
    if c = sep then [] :: r
    else
      match r with
      | [] => [[c]]
      | h :: t => (c :: h) :: t

/-- Python `s.split(sep)` for a one-character separator. -/
def pySplit (sep : Char) (s : String) : List String :=
  (splitChar sep s.data).map fun l => ⟨l⟩

/-- `p` leads `s`: the character-list core of Python `s.startswith(p)`. -/
def listLeads : List Char → List Char → Bool
  | [], _ => true
  | _ :: _, [] => false
  | a :: ps, b :: ss => a = b && listLeads ps ss

/-- Python `s.startswith(p)`. -/
def pyStartsWith (s p : String) : Bool :=
  listLeads p.data s.data

/-- Python slice `s[:n]` (by code points). -/
def pyTake (s : String) (n : Nat) : String :=
  ⟨s.data.take n⟩

/-- `VideoInfo`: the metadata dictionary built by `get_video`. -/
structure VideoInfo where
  title : String
  channel : String
  duration : Nat
  upload_date : String
  url : String
deriving DecidableEq

/-- One entry of `result["segments"]` as consumed by `format_markdown`:
a start time (seconds, fractional — Python `float`, modelled exactly as a
rational), an end time, and the segment text. -/
structure Segment where
  start : ℚ
  stop : ℚ
  text : String
deriving DecidableEq

/-- The transcript dictionary returned by `audio_to_text`. -/
structure Transcript where
  text : String
  segments : List Segment
deriving DecidableEq

/-- The summary dictionary returned by `generate_summary`
(keys `"summary"`, `"key_points"`, `"type"`). -/
structure SummaryR where
  summary : String
  key_points : List String
  type : String
deriving DecidableEq

/-- Module-level constant `ALLOW_AI_SUMMARY = True` in `app.py`. -/
def ALLOW_AI_SUMMARY : Bool := true

/-- Line 74 of `app.py`:
`sentences = [s.strip() for s in transcript_text.split("。") if s.strip()]`. -/
def sentencesOf (transcript_text : String) : List String :=
  ((pySplit '。' transcript_text).map pyStrip).filter fun s => s != ""

/-- Lines 74–86 of `app.py`: the extractive summary (`base_summary`). -/
def extractive_summary (transcript_text : String) : SummaryR :=
  let sentences := sentencesOf transcript_text
  if sentences.length ≤ 10 then
    { summary := String.intercalate "。" sentences ++ "。"
      key_points := sentences.take 5
      type := "快速提取总结（无API依赖）" }
  else
    { summary :=
        String.intercalate "。" (sentences.take 5
          ++ sentences.drop (sentences.length - 3)) ++ "。"
      key_points := sentences.take 5
      type := "快速提取总结（无API依赖）" }

/-- Line 113 of `app.py`: `line.startswith(("1.", "2.", "3.", "•", "-"))`. -/
def ai_markers_accept (line : String) : Bool :=
  pyStartsWith line "1." || pyStartsWith line "2." || pyStartsWith line "3."
    || pyStartsWith line "•" || pyStartsWith line "-"

/-- The character set of `line.lstrip("123.•- ")` on line 114 of `app.py`. -/
def lstrip_chars : List Char := ['1', '2', '3', '.', '•', '-', ' ']

/-- Lines 110–114 of `app.py`: the key-point extraction loop over
`ai_content.split("\n")` (each line stripped, kept iff it starts with one
of the markers, then `lstrip("123.•- ").strip()`). -/
def parse_ai_key_points (ai_content : String) : List String :=
  ((pySplit '\n' ai_content).map pyStrip).filterMap fun line =>
    if ai_markers_accept line then some (pyStrip (pyLStrip lstrip_chars line))
    else none

set_option linter.unusedVariables false in
/-- Lines 71–125 of `app.py`: `generate_summary`.  The outcome of the AI
completion call (lines 91–107, anything in them may raise) is the
`ai_response` parameter; `.ok raw` stands for
`response.choices[0].message["content"]` and `.error e` for a raised
exception caught on line 121.  The function is total: no branch raises.
The `video_info` argument is read only by the AI prompt construction
(line 97), which is inside the modelled call. -/
def generate_summary (transcript_text : String) (video_info : VideoInfo)
    (openai_key : String) (ai_response : Except String String) : SummaryR :=
  let base_summary := extractive_summary transcript_text
  if ALLOW_AI_SUMMARY && openai_key != "" then
    match ai_response with
    | .ok raw =>
      let ai_content := pyStrip raw
      { summary := ai_content
        key_points := (parse_ai_key_points ai_content).take 3
        type := "AI增强总结（GPT-3.5）" }
    | .error _ => base_summary
  else base_summary

/-- Digit value of a character, `none` when not an ASCII digit: the
character class `\d` of CPython's `_strptime` regexes. -/
def charVal (c : Char) : Option Nat :=
  if '0' ≤ c ∧ c ≤ '9' then some (c.toNat - 48) else none

/-- The `%m` regex of CPython `_strptime`, `1[0-2]|0[1-9]|[1-9]`, applied
to a digit-value list: every alternative that matches, in the order the
regex engine tries them, with the month value and the rest of the input. -/
def matchMonthAlts (cs : List (Option Nat)) : List (Nat × List (Option Nat)) :=
  (match cs with
   | some a :: some b :: r =>
     (if a = 1 ∧ b ≤ 2 then [(10 + b, r)] else [])
       ++ (if a = 0 ∧ 1 ≤ b then [(b, r)] else [])
   | _ => [])
    ++ (match cs with
        | some a :: r => if 1 ≤ a ∧ a ≤ 9 then [(a, r)] else []
        | _ => [])

/-- The `%d` regex of CPython `_strptime`, `3[01]|[12]\d|0[1-9]|[1-9]`,
applied to a digit-value list, in engine order. -/
def matchDayAlts (cs : List (Option Nat)) : List (Nat × List (Option Nat)) :=
  (match cs with
   | some a :: some b :: r =>
     (if a = 3 ∧ b ≤ 1 then [(30 + b, r)] else [])
       ++ (if a = 1 ∨ a = 2 then [(10 * a + b, r)] else [])
       ++ (if a = 0 ∧ 1 ≤ b then [(b, r)] else [])
   | _ => [])
    ++ (match cs with
        | some a :: r => if 1 ≤ a ∧ a ≤ 9 then [(a, r)] else []
        | _ => [])

/-- Gregorian leap year, as in Python `datetime`. -/
def isLeapYear (y : Nat) : Bool :=
  y % 4 = 0 && (y % 100 != 0 || y % 400 = 0)

/-- Days in a month, as validated by the Python `datetime` constructor. -/
def daysInMonth (y m : Nat) : Nat :=
  if m = 2 then (if isLeapYear y then 29 else 28)
  else if m = 4 ∨ m = 6 ∨ m = 9 ∨ m = 11 then 30
  else 31

/-- `datetime.strptime(s, "%Y%m%d")` (line 133 of `app.py`), following
CPython `_strptime`: the compiled regex is
`(?P<Y>\d\d\d\d)(?P<m>1[0-2]|0[1-9]|[1-9])(?P<d>3[01]|[12]\d|0[1-9]|[1-9])`,
matched by a backtracking engine that returns the first `%m`/`%d`
alternative combination that matches (in `matchMonthAlts`-major order);
afterwards `strptime` raises unless the match consumed the whole string,
and the `datetime` constructor raises unless the year is at least 1 and
the day fits the month.  A raise yields `none`. -/
def strptimeYMD (s : String) : Option (Nat × Nat × Nat) :=
  match s.data.map charVal with
  | some a :: some b :: some c :: some d :: rest =>
    let y := 1000 * a + 100 * b + 10 * c + d
    match ((matchMonthAlts rest).flatMap fun p =>
        (matchDayAlts p.2).map fun q => (p.1, q.1, q.2)).head? with
    | some (m, dd, leftover) =>
      if leftover = [] ∧ 1 ≤ y ∧ dd ≤ daysInMonth y m then some (y, m, dd)
      else none
    | none => none
  | _ => none

/-- `n` rendered as at least two digits with zero padding:
Python `f"{n:02d}"` for a nonnegative value. -/
def pad2 (n : Nat) : String :=
  if n < 10 then "0" ++ toString n else toString n

/-- A year rendered as at least four digits with zero padding (`%Y` in
`strftime`; all dates considered here have four-digit years, where every
platform agrees on this rendering). -/
def pad4 (n : Nat) : String :=
  if n < 10 then "000" ++ toString n
  else if n < 100 then "00" ++ toString n
  else if n < 1000 then "0" ++ toString n
  else toString n

/-- Python `f"{i:02d}"` for an `int` of either sign. -/
def pyFmt02d (i : Int) : String :=
  if 0 ≤ i ∧ i < 10 then "0" ++ toString i else toString i

/-- Line 131 of `app.py`:
`f"{duration//60}分{duration%60}秒" if duration else "未知"`. -/
def render_duration (duration : Nat) : String :=
  if duration != 0 then toString (duration / 60) ++ "分" ++ toString (duration % 60) ++ "秒"
  else "未知"

/-- Lines 132–135 of `app.py`: the `strptime`/`strftime` round trip with
`"未知"` on any raise. -/
def render_upload_date (upload_date : String) : String :=
  match strptimeYMD upload_date with
  | some (y, m, d) => pad4 y ++ "年" ++ pad2 m ++ "月" ++ pad2 d ++ "日"
  | none => "未知"

/-- Lines 159–160 of `app.py`: one timeline row,
`f"- **{int(start//60):02d}:{int(start%60):02d}**：{text[:50]}...\n"`.
Python `//` on floats is the floor, `%` keeps the divisor's sign, and
`int()` truncates; for the values produced here both compose to the floors
written below. -/
def render_segment (seg : Segment) : String :=
  "- **" ++ pyFmt02d ⌊seg.start / 60⌋ ++ ":"
    ++ pyFmt02d ⌊seg.start - 60 * (⌊seg.start / 60⌋ : ℚ)⌋ ++ "**："
    ++ pyTake seg.text 50 ++ "...\n"

/-- The report text built by lines 138–153 of `app.py`: the metadata and
summary template plus the numbered key-point lines — everything before the
optional timeline block. -/
def md_head (summary : SummaryR) (video_info : VideoInfo) : String :=
  "# 视频总结：" ++ video_info.title ++ "\n\n## 📋 视频信息\n- 标题：" ++ video_info.title
    ++ "\n- 来源：" ++ video_info.channel ++ "\n- 时长：" ++ render_duration video_info.duration
    ++ "\n- 上传日期：" ++ render_upload_date video_info.upload_date
    ++ "\n- 总结类型：" ++ summary.type ++ "\n\n## 📝 核心总结\n" ++ summary.summary
    ++ "\n\n## 🔑 关键要点\n"
    ++ String.join ((List.enumFrom 1 summary.key_points).map fun p =>
        toString p.1 ++ ". " ++ p.2 ++ "\n")

/-- The footer appended on line 162 of `app.py`; `now` is the
`datetime.now().strftime(...)` timestamp. -/
def md_footer (now : String) : String :=
  "\n---\n生成时间：" ++ (now ++ "\n网页工具：视频总结助手")

/-- Lines 127–163 of `app.py`: `format_markdown`.  The wall-clock read on
line 162 is the explicit `now` argument; apart from it the function is
pure.  Written as the same accumulation the source performs. -/
def format_markdown (summary : SummaryR) (video_info : VideoInfo)
    (transcript : Transcript) (now : String) : String :=
  let md := "# 视频总结：" ++ video_info.title ++ "\n\n## 📋 视频信息\n- 标题：" ++ video_info.title
    ++ "\n- 来源：" ++ video_info.channel ++ "\n- 时长：" ++ render_duration video_info.duration
    ++ "\n- 上传日期：" ++ render_upload_date video_info.upload_date
    ++ "\n- 总结类型：" ++ summary.type ++ "\n\n## 📝 核心总结\n" ++ summary.summary
    ++ "\n\n## 🔑 关键要点\n"
  let md := md ++ String.join ((List.enumFrom 1 summary.key_points).map fun p =>
      toString p.1 ++ ". " ++ p.2 ++ "\n")
  let md := if transcript.segments != [] then
      md ++ ("\n## ⏱️ 快速时间线（前3个重点）\n"
        ++ String.join ((transcript.segments.take 3).map render_segment))
    else md
  md ++ ("\n---\n生成时间：" ++ (now ++ "\n网页工具：视频总结助手"))

/-- The observable first steps of one run of `main` (lines 202–213 of
`app.py`) once the start button is pressed: either the empty-input error,
the URL-validation error (with an immediate `return`, before any call into
`get_video`), or the call `get_video(video_url)`. -/
inductive MainAction where
  | emptyUrlError : MainAction
  | invalidUrlError : MainAction
  | download : String → MainAction
deriving DecidableEq

/-- Lines 202–213 of `app.py`: `if start_btn and video_url:` followed by the
scheme check
`if not (video_url.startswith("http://") or video_url.startswith("https://"))`
which errors and returns, else step 1 calls `get_video(video_url)`. -/
def main_steps (video_url : String) : List MainAction :=
  if video_url != "" then
    if !(pyStartsWith video_url "http://" || pyStartsWith video_url "https://") then
      [MainAction.invalidUrlError]
    else [MainAction.download video_url]
  else [MainAction.emptyUrlError]

/-- The ASCII digit character for a value `0`–`9`. -/
def digitChar (n : Nat) : Char := Char.ofNat (48 + n)

/-- The canonical 8-digit `YYYYMMDD` rendering of a date, zero-padded. -/
def encodeYMD (y m d : Nat) : String :=
  ⟨[digitChar (y / 1000), digitChar (y / 100 % 10), digitChar (y / 10 % 10),
    digitChar (y % 10), digitChar (m / 10), digitChar (m % 10),
    digitChar (d / 10), digitChar (d % 10)]⟩

/-- The report text through the optional timeline block: `md_head` plus the
timeline block exactly when there are segments. -/
def md_before (summary : SummaryR) (video_info : VideoInfo)
    (transcript : Transcript) : String :=
  md_head summary video_info
    ++ (if transcript.segments != [] then
          "\n## ⏱️ 快速时间线（前3个重点）\n"
            ++ String.join ((transcript.segments.take 3).map render_segment)
        else "")

/-- What the spec's words for claim C4 describe as the stripping of an
accepted key-point line: exactly the marker and the separator characters
following it are removed, the remaining content kept intact.  Stated as a
second definition to compare with `parse_ai_key_points` (which embeds the
source's `lstrip("123.•- ")`). -/
def spec_marker_content (line : String) : Option String :=
  if pyStartsWith line "1." then some ⟨(line.data.drop 2).dropWhile pySpace⟩
  else if pyStartsWith line "2." then some ⟨(line.data.drop 2).dropWhile pySpace⟩
  else if pyStartsWith line "3." then some ⟨(line.data.drop 2).dropWhile pySpace⟩
  else if pyStartsWith line "•" then some ⟨(line.data.drop 1).dropWhile pySpace⟩
  else if pyStartsWith line "-" then some ⟨(line.data.drop 1).dropWhile pySpace⟩
  else none

/-- A concrete `VideoInfo` used by concrete instantiations. -/
def vi0 : VideoInfo := ⟨"标题", "频道", 0, "", "https://example.com"⟩

lemma generate_summary_no_key (t : String) (vi : VideoInfo)
    (ai : Except String String) :
    generate_summary t vi "" ai = extractive_summary t := by
  simp [generate_summary]

lemma generate_summary_ok (t : String) (vi : VideoInfo) (key raw : String)
    (h : key ≠ "") :
    generate_summary t vi key (.ok raw)
      = { summary := pyStrip raw
          key_points := (parse_ai_key_points (pyStrip raw)).take 3
          type := "AI增强总结（GPT-3.5）" } := by
  simp [generate_summary, ALLOW_AI_SUMMARY, h]

lemma generate_summary_err (t : String) (vi : VideoInfo) (key e : String)
    (h : key ≠ "") :
    generate_summary t vi key (.error e) = extractive_summary t := by
  simp [generate_summary, ALLOW_AI_SUMMARY, h]

/-- C1: for a transcript whose non-empty sentence list S (split on "。",
fragments trimmed, empty fragments discarded) has at most 10 entries, the
extractive result of `generate_summary` has `summary` equal to all of S
rejoined with "。" plus a trailing "。", and `key_points` equal to the
first `min 5 |S|` sentences. -/
theorem C1_extractive_short (t : String) (vi : VideoInfo)
    (ai : Except String String) (h : (sentencesOf t).length ≤ 10) :
    (generate_summary t vi "" ai).summary
      = String.intercalate "。" (sentencesOf t) ++ "。" ∧
    (generate_summary t vi "" ai).key_points
      = (sentencesOf t).take (min 5 (sentencesOf t).length) := by
  have htake : (sentencesOf t).take (min 5 (sentencesOf t).length)
      = (sentencesOf t).take 5 := by
    rw [← List.take_take, List.take_length]
  rw [generate_summary_no_key, htake]
  simp [extractive_summary, h]

/-- C1 witness: the spec's three-sentence example. -/
theorem C1_witness :
    (sentencesOf "第一句。第二句。第三句。").length ≤ 10 ∧
    (generate_summary "第一句。第二句。第三句。" vi0 "" (.error "")).summary
      = "第一句。第二句。第三句。" ∧
    (generate_summary "第一句。第二句。第三句。" vi0 "" (.error "")).key_points
      = ["第一句", "第二句", "第三句"] := by
  have h := C1_extractive_short "第一句。第二句。第三句。" vi0 (.error "") (by decide)
  exact ⟨by decide, h.1.trans (by decide), h.2.trans (by decide)⟩

/-- C2: for a transcript with more than 10 sentences, the extractive result
has `summary` equal to the first 5 sentences followed by the last 3, in that
order, rejoined with "。" plus a trailing "。", and `key_points` equal to
exactly the first 5 sentences (always 5 entries). -/
theorem C2_extractive_long (t : String) (vi : VideoInfo)
    (ai : Except String String) (h : 10 < (sentencesOf t).length) :
    (generate_summary t vi "" ai).summary
      = String.intercalate "。" ((sentencesOf t).take 5
          ++ (sentencesOf t).drop ((sentencesOf t).length - 3)) ++ "。" ∧
    (generate_summary t vi "" ai).key_points = (sentencesOf t).take 5 ∧
    (generate_summary t vi "" ai).key_points.length = 5 := by
  have hnot : ¬ (sentencesOf t).length ≤ 10 := by omega
  rw [generate_summary_no_key]
  refine ⟨?_, ?_, ?_⟩ <;> simp [extractive_summary, hnot]
  omega

/-- C2 witness: an eleven-sentence transcript. -/
theorem C2_witness :
    10 < (sentencesOf "一。二。三。四。五。六。七。八。九。十。极。").length ∧
    (generate_summary "一。二。三。四。五。六。七。八。九。十。极。" vi0 "" (.error "")).summary
      = "一。二。三。四。五。九。十。极。" ∧
    (generate_summary "一。二。三。四。五。六。七。八。九。十。极。" vi0 "" (.error "")).key_points
      = ["一", "二", "三", "四", "五"] := by
  have h := C2_extractive_long "一。二。三。四。五。六。七。八。九。十。极。" vi0
    (.error "") (by decide)
  exact ⟨by decide, h.1.trans (by decide), h.2.1.trans (by decide)⟩

/-- C3: when the AI-enhanced path is attempted (non-empty key) and the call
fails with any exception, `generate_summary` returns (it never raises: the
model is a total function) exactly the summary the extractive path alone
would have produced — the same value it returns with no key at all. -/
theorem C3_ai_failure_falls_back (t e key : String) (vi : VideoInfo)
    (h : key ≠ "") :
    generate_summary t vi key (.error e) = extractive_summary t ∧
    generate_summary t vi key (.error e) = generate_summary t vi "" (.error e) := by
  rw [generate_summary_err t vi key e h, generate_summary_no_key]
  exact ⟨rfl, rfl⟩

/-- C3 witness: a timed-out AI call on a concrete transcript and key. -/
theorem C3_witness :
    ("sk-key" : String) ≠ "" ∧
    generate_summary "第一句。第二句。" vi0 "sk-key" (.error "Request timed out")
      = extractive_summary "第一句。第二句。" ∧
    (generate_summary "第一句。第二句。" vi0 "sk-key" (.error "Request timed out")).summary
      = "第一句。第二句。" := by
  have h := C3_ai_failure_falls_back "第一句。第二句。" "Request timed out" "sk-key" vi0
    (by decide)
  exact ⟨by decide, h.1, h.1 ▸ (by decide)⟩

/-- C4 counterexample: the line "1. 2024年的计划" is accepted, but
`lstrip("123.•- ")` also strips the leading "2" of the content "2024年的计划",
so the stored key point is "024年的计划" and not the intact content the claim
describes. -/
theorem C4_counterexample :
    parse_ai_key_points "1. 2024年的计划" = ["024年的计划"] ∧
    spec_marker_content "1. 2024年的计划" = some "2024年的计划" ∧
    ("024年的计划" : String) ≠ "2024年的计划" := by decide

/-- C4 amended: a line is accepted iff, after trimming, it starts with one
of "1.", "2.", "3.", "•", "-"; each accepted line has its maximal leading
run of characters drawn from the set 1,2,3,".","•","-",space removed (which
can strip content characters beyond the marker) and is then trimmed;
accepted lines are kept in encounter order and truncated to the first 3. -/
theorem C4_ai_keypoint_parsing (t raw key : String) (vi : VideoInfo)
    (h : key ≠ "") :
    (generate_summary t vi key (.ok raw)).key_points
      = (((pySplit '\n' (pyStrip raw)).map pyStrip).filterMap fun line =>
          if pyStartsWith line "1." || pyStartsWith line "2."
              || pyStartsWith line "3." || pyStartsWith line "•"
              || pyStartsWith line "-" then
            some (pyStrip (pyLStrip ['1', '2', '3', '.', '•', '-', ' '] line))
          else none).take 3 ∧
    (generate_summary t vi key (.ok raw)).key_points.length ≤ 3 := by
  rw [generate_summary_ok t vi key raw h]
  refine ⟨rfl, ?_⟩
  exact List.length_take_le 3 _

/-- C4 witness: four candidate lines, one rejected, and truncation to 3. -/
theorem C4_witness :
    (generate_summary "原文。" vi0 "sk-key"
        (.ok "核心内容\n1. 要点一\n补充说明\n• 要点二\n- 要点三\n2. 要点四")).key_points
      = ["要点一", "要点二", "要点三"] := by
  have h := C4_ai_keypoint_parsing "原文。" "核心内容\n1. 要点一\n补充说明\n• 要点二\n- 要点三\n2. 要点四"
    "sk-key" vi0 (by decide)
  exact h.1.trans (by decide)

/-- C5 counterexample: for the empty transcript the returned summary body is
"。" (the unconditionally appended full stop), not the empty text the claim
states; the key-point list is indeed empty. -/
theorem C5_counterexample :
    sentencesOf "" = [] ∧
    (generate_summary "" vi0 "" (.error "")).summary = "。" ∧
    (generate_summary "" vi0 "" (.error "")).summary ≠ "" ∧
    (generate_summary "" vi0 "" (.error "")).key_points = [] := by decide

/-- C5 amended: for a transcript with no non-empty sentences,
`generate_summary` still returns a Summary (the model is total) whose
`key_points` list is empty, but whose body is the single full stop "。"
(the trailing "。" is appended unconditionally), not the empty text —
and this is what is returned whenever the AI call is absent or fails. -/
theorem C5_empty_transcript (t key e : String) (vi : VideoInfo)
    (h : sentencesOf t = []) :
    extractive_summary t
      = { summary := "。", key_points := [], type := "快速提取总结（无API依赖）" } ∧
    generate_summary t vi key (.error e) = extractive_summary t := by
  constructor
  · simp only [extractive_summary, h]
    rfl
  · by_cases hk : key = ""
    · rw [hk, generate_summary_no_key]
    · rw [generate_summary_err t vi key e hk]

/-- C5 witness: the empty transcript with a failing AI call. -/
theorem C5_witness :
    sentencesOf "" = [] ∧
    extractive_summary ""
      = { summary := "。", key_points := [], type := "快速提取总结（无API依赖）" } ∧
    generate_summary "" vi0 "sk-key" (.error "boom") = extractive_summary "" := by
  have h := C5_empty_transcript "" "sk-key" "boom" vi0 (by decide)
  exact ⟨by decide, h.1, h.2⟩

/-- C8: once the start button is pressed with a non-empty URL that starts
with neither "http://" nor "https://", the run stops at the validation
error and `get_video` is never reached; any URL starting with one of the
two schemes passes the validation and reaches the download call. -/
theorem C8_url_validation (url : String) :
    (url ≠ "" →
      ¬(pyStartsWith url "http://" = true ∨ pyStartsWith url "https://" = true) →
      main_steps url = [MainAction.invalidUrlError] ∧
        ∀ u, MainAction.download u ∉ main_steps url) ∧
    (pyStartsWith url "http://" = true ∨ pyStartsWith url "https://" = true →
      main_steps url = [MainAction.download url]) := by
  constructor
  · intro hne hno
    have h1 : pyStartsWith url "http://" = false := by
      cases hh : pyStartsWith url "http://"
      · rfl
      · exact absurd (Or.inl hh) hno
    have h2 : pyStartsWith url "https://" = false := by
      cases hh : pyStartsWith url "https://"
      · rfl
      · exact absurd (Or.inr hh) hno
    have hsteps : main_steps url = [MainAction.invalidUrlError] := by
      simp [main_steps, hne, h1, h2]
    refine ⟨hsteps, fun u => ?_⟩
    rw [hsteps]
    simp
  · intro hyes
    have hne : url ≠ "" := by
      rintro rfl
      rcases hyes with h1 | h1 <;> exact absurd h1 (by decide)
    have hb : (pyStartsWith url "http://" || pyStartsWith url "https://") = true := by
      rcases hyes with h1 | h1 <;> simp [h1]
    simp [main_steps, hne, hb]

/-- C8 witness: the spec's invalid URL and a valid https URL. -/
theorem C8_witness :
    main_steps "ftp://example.com/video" = [MainAction.invalidUrlError] ∧
    (∀ u, MainAction.download u ∉ main_steps "ftp://example.com/video") ∧
    main_steps "https://www.bilibili.com/video/BV1xx411c7mC"
      = [MainAction.download "https://www.bilibili.com/video/BV1xx411c7mC"] := by
  have h1 := (C8_url_validation "ftp://example.com/video").1 (by decide) (by decide)
  have h2 := (C8_url_validation "https://www.bilibili.com/video/BV1xx411c7mC").2
    (Or.inr (by decide))
  exact ⟨h1.1, h1.2, h2⟩

/-- C10: when the AI call succeeds but no returned line starts (after
trimming) with one of the markers, the returned key-point list is empty —
the extractive key points (min 5 |S| of them) are not substituted. -/
theorem C10_ai_no_marker_lines (t raw key : String) (vi : VideoInfo)
    (h : key ≠ "")
    (hnone : ∀ line ∈ (pySplit '\n' (pyStrip raw)).map pyStrip,
      ai_markers_accept line = false) :
    (generate_summary t vi key (.ok raw)).key_points = [] ∧
    (generate_summary t vi key (.ok raw)).type = "AI增强总结（GPT-3.5）" ∧
    (extractive_summary t).key_points.length = min 5 (sentencesOf t).length := by
  rw [generate_summary_ok t vi key raw h]
  refine ⟨?_, rfl, ?_⟩
  · have hnil : parse_ai_key_points (pyStrip raw) = [] := by
      rw [parse_ai_key_points, List.filterMap_eq_nil_iff]
      intro line hline
      rw [hnone line hline]
      rfl
    rw [hnil]
    rfl
  · by_cases hlen : (sentencesOf t).length ≤ 10 <;>
      simp [extractive_summary, hlen, List.length_take]

/-- C10 witness: a successful AI reply with no marker lines, on a transcript
whose extractive path would have produced two key points. -/
theorem C10_witness :
    (generate_summary "第一句。第二句。" vi0 "sk-key" (.ok "总结正文，没有任何要点标记行")).key_points
      = [] ∧
    (extractive_summary "第一句。第二句。").key_points.length = 2 := by
  have h := C10_ai_no_marker_lines "第一句。第二句。" "总结正文，没有任何要点标记行" "sk-key" vi0
    (by decide) (by decide)
  exact ⟨h.1, h.2.2.trans (by decide)⟩

lemma charVal_digitChar (k : Nat) (hk : k ≤ 9) : charVal (digitChar k) = some k := by
  interval_cases k <;> decide

lemma daysInMonth_le (y m : Nat) : daysInMonth y m ≤ 31 := by
  unfold daysInMonth
  split_ifs <;> omega

lemma matchMonthAlts_pad (m : Nat) (hm1 : 1 ≤ m) (hm2 : m ≤ 12)
    (r : List (Option Nat)) :
    ∃ tail, matchMonthAlts (some (m / 10) :: some (m % 10) :: r) = (m, r) :: tail := by
  by_cases h : m ≤ 9
  · have h10 : m / 10 = 0 := by omega
    have hmod : m % 10 = m := by omega
    rw [h10, hmod]
    refine ⟨[], ?_⟩
    simp [matchMonthAlts, hm1]
  · have h10 : m / 10 = 1 := by omega
    have hmod : m % 10 = m - 10 := by omega
    have hble : m - 10 ≤ 2 := by omega
    rw [h10, hmod]
    refine ⟨[(1, some (m - 10) :: r)], ?_⟩
    simp [matchMonthAlts, hble]
    omega

lemma matchDayAlts_pad (d : Nat) (hd1 : 1 ≤ d) (hd2 : d ≤ 31) :
    ∃ tail, matchDayAlts [some (d / 10), some (d % 10)]
      = (d, ([] : List (Option Nat))) :: tail := by
  by_cases h9 : d ≤ 9
  · have h10 : d / 10 = 0 := by omega
    have hmod : d % 10 = d := by omega
    rw [h10, hmod]
    refine ⟨[], ?_⟩
    simp [matchDayAlts, hd1]
  · by_cases h29 : d ≤ 29
    · have h10 : d / 10 = 1 ∨ d / 10 = 2 := by omega
      rcases h10 with h10 | h10 <;>
        · rw [h10]
          refine ⟨[(d / 10, [some (d % 10)])], ?_⟩
          rw [h10]
          simp [matchDayAlts]
          omega
    · have h10 : d / 10 = 3 := by omega
      have hmod : d % 10 = d - 30 := by omega
      have hble : d - 30 ≤ 1 := by omega
      rw [h10, hmod]
      refine ⟨[(3, [some (d - 30)])], ?_⟩
      simp [matchDayAlts, hble]
      omega

/-- Every valid calendar date rendered as 8 zero-padded digits is accepted
by `strptime(s, "%Y%m%d")` and parsed to its components. -/
lemma strptimeYMD_encode (y m d : Nat) (hy1 : 1 ≤ y) (hy2 : y ≤ 9999)
    (hm1 : 1 ≤ m) (hm2 : m ≤ 12) (hd1 : 1 ≤ d) (hd2 : d ≤ daysInMonth y m) :
    strptimeYMD (encodeYMD y m d) = some (y, m, d) := by
  have hd31 : d ≤ 31 := le_trans hd2 (daysInMonth_le y m)
  have e1 := charVal_digitChar (y / 1000) (by omega)
  have e2 := charVal_digitChar (y / 100 % 10) (by omega)
  have e3 := charVal_digitChar (y / 10 % 10) (by omega)
  have e4 := charVal_digitChar (y % 10) (by omega)
  have e5 := charVal_digitChar (m / 10) (by omega)
  have e6 := charVal_digitChar (m % 10) (by omega)
  have e7 := charVal_digitChar (d / 10) (by omega)
  have e8 := charVal_digitChar (d % 10) (by omega)
  have hdata : (encodeYMD y m d).data.map charVal
      = [some (y / 1000), some (y / 100 % 10), some (y / 10 % 10), some (y % 10),
         some (m / 10), some (m % 10), some (d / 10), some (d % 10)] := by
    simp [encodeYMD, e1, e2, e3, e4, e5, e6, e7, e8]
  obtain ⟨tm, hmm⟩ := matchMonthAlts_pad m hm1 hm2 [some (d / 10), some (d % 10)]
  obtain ⟨td, hdd⟩ := matchDayAlts_pad d hd1 (le_trans hd2 (daysInMonth_le y m))
  have hy : 1000 * (y / 1000) + 100 * (y / 100 % 10) + 10 * (y / 10 % 10) + y % 10
      = y := by omega
  rw [strptimeYMD, hdata]
  simp only [hmm, hdd, List.flatMap_cons, List.map_cons, List.cons_append,
    List.head?_cons, hy]
  simp [hy1, hd2]

/-- C6 counterexample: `strptime("%Y%m%d")` does not reject every string
that is not an 8-digit `YYYYMMDD` date — the 7-character `"2024115"` parses
(as 2024-11-05) and is rendered as a date, where the claim requires the
"未知" fallback. -/
theorem C6_counterexample :
    ("2024115" : String).length = 7 ∧
    render_upload_date "2024115" = "2024年11月05日" ∧
    ("2024年11月05日" : String) ≠ "未知" := by decide

/-- C6 amended: the duration is rendered as `duration / 60` minutes and
`duration % 60` seconds, or "未知" when it is 0; the upload date is parsed
with CPython `strptime("%Y%m%d")` semantics — every valid 8-digit
`YYYYMMDD` string is accepted and rendered zero-padded as "Y年M月D日", the
empty string and every other rejected string fall back to "未知", but some
6–7 character strings are also accepted and rendered as dates. -/
theorem C6_metadata_rendering (n y m d : Nat) (s : String) (hn : n ≠ 0)
    (hy1 : 1000 ≤ y) (hy2 : y ≤ 9999) (hm1 : 1 ≤ m) (hm2 : m ≤ 12)
    (hd1 : 1 ≤ d) (hd2 : d ≤ daysInMonth y m)
    (hs : strptimeYMD s = none) :
    render_duration n = toString (n / 60) ++ "分" ++ toString (n % 60) ++ "秒" ∧
    render_duration 0 = "未知" ∧
    render_upload_date (encodeYMD y m d)
      = pad4 y ++ "年" ++ pad2 m ++ "月" ++ pad2 d ++ "日" ∧
    render_upload_date s = "未知" ∧
    render_upload_date "" = "未知" := by
  refine ⟨?_, rfl, ?_, ?_, rfl⟩
  · simp [render_duration, hn]
  · rw [render_upload_date, strptimeYMD_encode y m d (by omega) hy2 hm1 hm2 hd1 hd2]
  · rw [render_upload_date, hs]

/-- C6 witness: the spec's examples `"20240115"`, `""`, plus a nonzero and
a zero duration. -/
theorem C6_witness :
    render_upload_date "20240115" = "2024年01月15日" ∧
    render_upload_date "" = "未知" ∧
    render_duration 83 = "1分23秒" ∧
    render_duration 0 = "未知" := by
  have h := C6_metadata_rendering 83 2024 1 15 "" (by decide) (by omega) (by omega)
    (by omega) (by omega) (by omega) (by decide) (by decide)
  have henc : encodeYMD 2024 1 15 = "20240115" := by decide
  have h3 : render_upload_date "20240115" = "2024年01月15日" := by
    have hx := h.2.2.1
    rw [henc] at hx
    exact hx.trans (by decide)
  exact ⟨h3, h.2.2.2.2, h.1.trans (by decide), h.2.1⟩

lemma format_markdown_decomp (s : SummaryR) (vi : VideoInfo) (t : Transcript)
    (now : String) :
    format_markdown s vi t now
      = md_before s vi t
          ++ ("\n---\n生成时间：" ++ (now ++ "\n网页工具：视频总结助手")) := by
  cases hb : (t.segments != []) <;>
    simp [format_markdown, md_before, md_head, hb, String.append_assoc]

/-- C7: the report contains the timeline block iff the transcript has
segments; when present, the block lists exactly the first
`min 3 (number of segments)` segments, each rendered by `render_segment`
(zero-padded `MM:SS` floor-divided from the start seconds, then the first
50 characters of the segment text and an ellipsis). -/
theorem C7_timeline_block (s : SummaryR) (vi : VideoInfo) (t : Transcript)
    (now : String) :
    (t.segments = [] →
      format_markdown s vi t now
        = md_head s vi
            ++ ("\n---\n生成时间：" ++ (now ++ "\n网页工具：视频总结助手"))) ∧
    (t.segments ≠ [] →
      format_markdown s vi t now
        = md_head s vi
            ++ (("\n## ⏱️ 快速时间线（前3个重点）\n"
                ++ String.join ((t.segments.take 3).map render_segment))
              ++ ("\n---\n生成时间：" ++ (now ++ "\n网页工具：视频总结助手"))) ∧
      (t.segments.take 3).length = min 3 t.segments.length) := by
  constructor
  · intro h
    rw [format_markdown_decomp]
    simp [md_before, h]
  · intro h
    have hb : (t.segments != []) = true := by simpa using h
    refine ⟨?_, by simp [List.length_take]⟩
    rw [format_markdown_decomp]
    simp [md_before, hb, String.append_assoc]

/-- C7 witness: a transcript with one segment (start 125.7 s) next to an
empty one. -/
theorem C7_witness :
    (Transcript.mk "t" [⟨(1257 : ℚ) / 10, 130, "第一段的内容"⟩]).segments ≠ [] ∧
    format_markdown ⟨"body", ["p"], "快速提取总结（无API依赖）"⟩ vi0
        (Transcript.mk "t" [⟨(1257 : ℚ) / 10, 130, "第一段的内容"⟩]) "T"
      = md_head ⟨"body", ["p"], "快速提取总结（无API依赖）"⟩ vi0
          ++ (("\n## ⏱️ 快速时间线（前3个重点）\n"
              ++ String.join (((Transcript.mk "t"
                  [⟨(1257 : ℚ) / 10, 130, "第一段的内容"⟩]).segments.take 3).map
                    render_segment))
            ++ ("\n---\n生成时间：" ++ ("T" ++ "\n网页工具：视频总结助手"))) ∧
    (Transcript.mk "t" [⟨(1257 : ℚ) / 10, 130, "第一段的内容"⟩]).segments.length = 1 := by
  have hne : (Transcript.mk "t" [⟨(1257 : ℚ) / 10, 130, "第一段的内容"⟩]).segments ≠ [] := by
    simp
  have h := (C7_timeline_block ⟨"body", ["p"], "快速提取总结（无API依赖）"⟩ vi0
    (Transcript.mk "t" [⟨(1257 : ℚ) / 10, 130, "第一段的内容"⟩]) "T").2 hne
  exact ⟨hne, h.1, rfl⟩

/-- C9: for a fixed (Summary, VideoInfo, Transcript) triple the report text
is the same on every invocation except for the timestamp spliced into the
trailing generation-time line — the only non-argument input of
`format_markdown` is the injected wall-clock string. -/
theorem C9_report_deterministic (s : SummaryR) (vi : VideoInfo) (t : Transcript)
    (n1 n2 : String) :
    ∃ a : String,
      format_markdown s vi t n1 = a ++ (n1 ++ "\n网页工具：视频总结助手") ∧
      format_markdown s vi t n2 = a ++ (n2 ++ "\n网页工具：视频总结助手") := by
  refine ⟨md_before s vi t ++ "\n---\n生成时间：", ?_, ?_⟩ <;>
    rw [format_markdown_decomp] <;>
    simp [String.append_assoc]

end App
